import Mathlib

/-!
Formal model of the VANET secure-routing core: the crypto envelope
(`src/src/crypto/crypto-module.cpp`) and the secure routing protocol
(`src/src/routing/secure-routing.cpp`), embedded shallowly.  Machine
integers are modelled as `Nat` with explicit reduction modulo `2^32` /
`2^64` where C++ unsigned arithmetic wraps; OpenSSL primitives
(signature verification, certificate validation, SHA-256, key
generation) are uninterpreted function parameters; byte vectors are
`List Nat`.
-/

namespace VANET

namespace Crypto

/-- `MAX_MESSAGE_HISTORY` from crypto-module.cpp line 11. -/
def MAX_MESSAGE_HISTORY : Nat := 1000

/-- `MESSAGE_TIMEOUT` (milliseconds) from crypto-module.cpp line 12. -/
def MESSAGE_TIMEOUT : Nat := 5000

/-- Modulus of C++ `uint32_t`. -/
def U32_MOD : Nat := 2 ^ 32

/-- Modulus of C++ `uint64_t`. -/
def U64_MOD : Nat := 2 ^ 64

/-- The wrapping subtraction `a - b` on `uint64_t` values, used by
`isValidTimestamp` and `pruneMessageHistory` (the C++ expression
`now - timestamp` is computed in `uint64_t` because `timestamp` is
`uint64_t`, so a future timestamp underflows). -/
def u64sub (a b : Nat) : Nat := (a + U64_MOD - b % U64_MOD) % U64_MOD

/-- `CryptoModule::SecureMessage` (crypto-module.h lines 63-69). -/
structure SecureMessage where
  payload : List Nat
  signature : List Nat
  timestamp : Nat
  sequenceNumber : Nat
  senderCert : List Nat
deriving DecidableEq

/-- `CryptoModule::MessageHistory` (crypto-module.h lines 85-89),
one replay-cache record. -/
structure MessageHistory where
  timestamp : Nat
  sequenceNumber : Nat
  messageHash : List Nat
deriving DecidableEq

/-- Little-endian byte serialisation of an 8-byte integer, modelling the
`memcpy` of the x86 representation of `msg.timestamp` in
`createSecureMessage` / `verifySecureMessage`. -/
def le64 (n : Nat) : List Nat := (List.range 8).map (fun i => n / 256 ^ i % 256)

/-- Little-endian byte serialisation of a 4-byte integer (the sequence
number field). -/
def le32 (n : Nat) : List Nat := (List.range 4).map (fun i => n / 256 ^ i % 256)

/-- The byte string that `createSecureMessage` signs and
`verifySecureMessage` verifies: payload followed by the raw bytes of
the timestamp and the sequence number (crypto-module.cpp lines 184-190
and 230-236). -/
def signedBytes (payload : List Nat) (timestamp seq : Nat) : List Nat :=
  payload ++ le64 timestamp ++ le32 seq

/-- `CryptoModule::isValidTimestamp` (crypto-module.cpp lines 278-284):
`(now - timestamp) <= MESSAGE_TIMEOUT`, where the subtraction is
`uint64_t` arithmetic. -/
def isValidTimestamp (now timestamp : Nat) : Bool :=
  u64sub now timestamp ≤ MESSAGE_TIMEOUT

/-- `CryptoModule::isReplayMessage` (crypto-module.cpp lines 241-248):
a linear scan of the replay cache for a record with the same
(timestamp, sequenceNumber) pair. -/
def isReplayMessage (history : List MessageHistory) (message : SecureMessage) : Bool :=
  history.any (fun h =>
    h.timestamp == message.timestamp && h.sequenceNumber == message.sequenceNumber)

/-- `CryptoModule::pruneMessageHistory` (crypto-module.cpp lines
264-276): erase-remove of every record with `(now - timestamp) >
MESSAGE_TIMEOUT` (again `uint64_t` subtraction). -/
def pruneMessageHistory (now : Nat) (history : List MessageHistory) : List MessageHistory :=
  history.filter (fun h => ¬ (u64sub now h.timestamp > MESSAGE_TIMEOUT))

/-- `CryptoModule::updateMessageHistory` (crypto-module.cpp lines
250-262): push a new record built from the message (its payload hashed
by the SHA-256 primitive `hash`, uninterpreted here), then prune only
when the size exceeds `MAX_MESSAGE_HISTORY`. -/
def updateMessageHistory (hash : List Nat → List Nat) (history : List MessageHistory)
    (now : Nat) (message : SecureMessage) : List MessageHistory :=
  let history2 := history ++
    [⟨message.timestamp, message.sequenceNumber, hash message.payload⟩]
  if history2.length > MAX_MESSAGE_HISTORY then pruneMessageHistory now history2
  else history2

/-- `CryptoModule::verifySecureMessage` (crypto-module.cpp lines
207-239), as a state transformer on the replay cache.  `sigVerify`
models `CryptoModule::verifySignature` (an OpenSSL call on message
bytes, signature bytes and DER key bytes); `certOk` models the X.509
parse plus `verifyCertificate` on the sender certificate.  Note that
the C++ function passes `message.senderCert` as the public-key bytes
of the signature check, and that no branch touches `messageHistory`
other than reading it: the success path returns without inserting a
replay record. -/
def verifySecureMessage (sigVerify : List Nat → List Nat → List Nat → Bool)
    (certOk : List Nat → Bool) (now : Nat)
    (history : List MessageHistory) (message : SecureMessage) :
    Bool × List MessageHistory :=
  if ¬ isValidTimestamp now message.timestamp then (false, history)
  else if isReplayMessage history message then (false, history)
  else if message.senderCert ≠ [] ∧ ¬ certOk message.senderCert then (false, history)
  else (sigVerify (signedBytes message.payload message.timestamp message.sequenceNumber)
          message.signature message.senderCert, history)

/-- `CryptoModule::createSecureMessage` (crypto-module.cpp lines
173-205).  The sequence number is `++sequence` of a `static uint32_t
sequence = 0`: the counter is process-global, pre-incremented, and the
incremented value is both stored in the message and left in the
counter.  `sign` models `CryptoModule::signMessage`; `cert` is the
DER bytes of the loaded certificate, if any.  Returns the message and
the new value of the global counter. -/
def createSecureMessage (sign : List Nat → List Nat) (cert : Option (List Nat))
    (counter : Nat) (payload : List Nat) (now : Nat) : SecureMessage × Nat :=
  let seq := (counter + 1) % U32_MOD
  ({ payload := payload
     signature := sign (signedBytes payload now seq)
     timestamp := now
     sequenceNumber := seq
     senderCert := cert.getD [] }, seq)

/-- The value of the process-global sequence counter after `n` calls to
`createSecureMessage` anywhere in the process (it starts at 0). -/
def counterAfter (sign : List Nat → List Nat) : Nat → Nat
  | 0 => 0
  | n + 1 => (createSecureMessage sign none (counterAfter sign n) [] 0).2

end Crypto

namespace Routing

open Crypto

open Classical

/-- `MAX_TRUST_SCORE` from secure-routing.cpp line 11. -/
def MAX_TRUST_SCORE : ℝ := 1

/-- `MIN_TRUST_SCORE` from secure-routing.cpp line 12. -/
def MIN_TRUST_SCORE : ℝ := 0

/-- `TRUST_THRESHOLD` from secure-routing.cpp line 13. -/
def TRUST_THRESHOLD : ℝ := 0.5

/-- `MAX_SPEED` in km/h from secure-routing.cpp line 14. -/
def MAX_SPEED : ℝ := 200

/-- `MAX_ACCELERATION` in m/s² from secure-routing.cpp line 15. -/
def MAX_ACCELERATION : ℝ := 10

/-- `ROUTE_TIMEOUT` (60 s) from secure-routing.cpp line 16, in
milliseconds, the unit timestamps are modelled in. -/
def ROUTE_TIMEOUT : ℤ := 60000

/-- `NEIGHBOR_TIMEOUT` (10 s) from secure-routing.cpp line 17, in
milliseconds. -/
def NEIGHBOR_TIMEOUT : ℤ := 10000

/-- `MAX_HOP_COUNT` from secure-routing.cpp line 18. -/
def MAX_HOP_COUNT : Nat := 10

/-- `Position` (secure-routing.h lines 13-18): coordinates in meters as
doubles (modelled as reals), observed-at timestamp in milliseconds. -/
structure Position where
  x : ℝ
  y : ℝ
  z : ℝ
  timestamp : ℤ

/-- `VehicleInfo` (secure-routing.h lines 20-27). -/
structure VehicleInfo where
  id : String
  position : Position
  speed : ℝ
  direction : ℝ
  trustScore : ℝ
  certificate : List Nat

/-- `RouteEntry` (secure-routing.h lines 29-34). -/
structure RouteEntry where
  nextHop : String
  hopCount : Nat
  timestamp : ℤ
  trustScore : ℝ

/-- Lookup in a `std::map<std::string, α>` modelled as an association
list. -/
def mapFind (m : List (String × α)) (k : String) : Option α := m.lookup k

/-- `m[k] = v` on a `std::map` modelled as an association list: replace
the entry for `k` if present, append otherwise. -/
def mapInsert (m : List (String × α)) (k : String) (v : α) : List (String × α) :=
  (m.eraseP (fun p => p.1 == k)) ++ [(k, v)]

/-- `m.erase(it)` for the entry of key `k`. -/
def mapErase (m : List (String × α)) (k : String) : List (String × α) :=
  m.eraseP (fun p => p.1 == k)

/-- The private state of one `SecureRoutingProtocol` instance
(secure-routing.h lines 75-90), together with the replay cache of the
`CryptoModule` instance the routing instance owns.  The process-global
sequence counter of `createSecureMessage` is deliberately not part of
this per-instance state. -/
structure RoutingState where
  vehicleId : String
  localInfo : VehicleInfo
  routingTable : List (String × RouteEntry)
  neighborTable : List (String × VehicleInfo)
  trustScores : List (String × ℝ)
  messageHistory : List MessageHistory

/-- The state established by the constructor
`SecureRoutingProtocol::SecureRoutingProtocol` (secure-routing.cpp
lines 20-24): all tables empty, `localInfo.id = id`,
`localInfo.trustScore = MAX_TRUST_SCORE`; the remaining `localInfo`
fields are default/indeterminate in C++ and modelled as zeros. -/
def initState (id : String) : RoutingState :=
  { vehicleId := id
    localInfo :=
      { id := id, position := ⟨0, 0, 0, 0⟩, speed := 0, direction := 0
        trustScore := MAX_TRUST_SCORE, certificate := [] }
    routingTable := []
    neighborTable := []
    trustScores := []
    messageHistory := [] }

/-- `SecureRoutingProtocol::calculateDistance` (secure-routing.cpp
lines 273-278): euclidean distance of two positions. -/
noncomputable def calculateDistance (pos1 pos2 : Position) : ℝ :=
  Real.sqrt ((pos1.x - pos2.x) ^ 2 + (pos1.y - pos2.y) ^ 2 + (pos1.z - pos2.z) ^ 2)

/-- `SecureRoutingProtocol::isValidMovement` (secure-routing.cpp lines
280-299).  The early returns become a conjunction: `timeElapsed <= 0`
rejects; the speed in km/h is `distance / timeElapsed * 3.6` and must
not exceed `MAX_SPEED`; the quantity the code names `acceleration` is
that same km/h speed divided once more by `timeElapsed`, and must be
at most `MAX_ACCELERATION`. -/
def isValidMovement (oldPos newPos : Position) (timeElapsed : ℝ) : Prop :=
  ¬ (timeElapsed ≤ 0) ∧
  ¬ ((calculateDistance oldPos newPos / timeElapsed) * 3.6 > MAX_SPEED) ∧
  ((calculateDistance oldPos newPos / timeElapsed) * 3.6) / timeElapsed ≤ MAX_ACCELERATION

/-- `SecureRoutingProtocol::detectBlackHole` (secure-routing.cpp lines
206-210): the body is `return false`. -/
def detectBlackHole (_st : RoutingState) (_suspectId : String) : Prop := False

/-- `SecureRoutingProtocol::detectSybil` (secure-routing.cpp lines
212-216): the body is `return false`. -/
def detectSybil (_st : RoutingState) (_suspectId : String) : Prop := False

/-- `SecureRoutingProtocol::detectPositionFalsification`
(secure-routing.cpp lines 222-233): compares the reported position
against the neighbor-table entry, with the elapsed time truncated to
whole seconds (`duration_cast<seconds>`, i.e. C++ integer division
toward zero) before the plausibility check. -/
def detectPositionFalsification (st : RoutingState) (vid : String)
    (reportedPos : Position) : Prop :=
  match mapFind st.neighborTable vid with
  | none => False
  | some info =>
      ¬ isValidMovement info.position reportedPos
        ((Int.tdiv (reportedPos.timestamp - info.position.timestamp) 1000 : ℤ) : ℝ)

/-- `SecureRoutingProtocol::calculateTrust` (secure-routing.cpp lines
144-167): unknown ids score `MIN_TRUST_SCORE`; otherwise the stored
score, halved once if a black-hole or Sybil detector fires, halved
once more if the id is a neighbor whose stored position fails the
falsification check against itself, then clamped to
`[MIN_TRUST_SCORE, MAX_TRUST_SCORE]`. -/
noncomputable def calculateTrust (st : RoutingState) (vid : String) : ℝ :=
  match mapFind st.trustScores vid with
  | none => MIN_TRUST_SCORE
  | some score =>
      let score1 := if detectBlackHole st vid ∨ detectSybil st vid
        then score * 0.5 else score
      let score2 := match mapFind st.neighborTable vid with
        | none => score1
        | some info =>
            if detectPositionFalsification st vid info.position
            then score1 * 0.5 else score1
      max MIN_TRUST_SCORE (min MAX_TRUST_SCORE score2)

/-- `SecureRoutingProtocol::updateTrustScore` (secure-routing.cpp lines
169-174): exponential moving average with α = 0.3; `operator[]`
default-constructs a 0.0 score for an unknown id. -/
def updateTrustScore (st : RoutingState) (vid : String) (score : ℝ) : RoutingState :=
  let currentScore := (mapFind st.trustScores vid).getD 0
  { st with trustScores :=
      mapInsert st.trustScores vid ((0.3 * score) + ((1 - 0.3) * currentScore)) }

/-- `SecureRoutingProtocol::isVehicleTrusted` (secure-routing.cpp lines
176-178). -/
noncomputable def isVehicleTrusted (st : RoutingState) (vid : String) : Prop :=
  calculateTrust st vid ≥ TRUST_THRESHOLD

/-- `SecureRoutingProtocol::initializeVehicle` (secure-routing.cpp
lines 28-35): id mismatch fails, otherwise `localInfo` is replaced and
the result is that of the key generation, an OpenSSL outcome modelled
by `keygenOk`. -/
def initVehicle (st : RoutingState) (info : VehicleInfo) (keygenOk : Bool) :
    Bool × RoutingState :=
  if info.id ≠ st.vehicleId then (false, st)
  else (keygenOk, { st with localInfo := info })

/-- `SecureRoutingProtocol::pruneExpiredEntries` (secure-routing.cpp
lines 301-321): drop routing entries with `timestamp + ROUTE_TIMEOUT <
now` and neighbors with `position.timestamp + NEIGHBOR_TIMEOUT <
now`. -/
def pruneExpiredEntries (st : RoutingState) (now : ℤ) : RoutingState :=
  { st with
    routingTable := st.routingTable.filter
      (fun p => ¬ (p.2.timestamp + ROUTE_TIMEOUT < now))
    neighborTable := st.neighborTable.filter
      (fun p => ¬ (p.2.position.timestamp + NEIGHBOR_TIMEOUT < now)) }

/-- `SecureRoutingProtocol::updatePosition` (secure-routing.cpp lines
37-47): the time delta between the stored and the new position is
truncated to whole seconds (`duration_cast<seconds>`) before the
movement-plausibility check; on success the position is stored and
expired entries are pruned. -/
noncomputable def updatePosition (st : RoutingState) (newPos : Position) (now : ℤ) :
    Bool × RoutingState :=
  if ¬ isValidMovement st.localInfo.position newPos
      ((Int.tdiv (newPos.timestamp - st.localInfo.position.timestamp) 1000 : ℤ) : ℝ)
  then (false, st)
  else (true,
    pruneExpiredEntries
      { st with localInfo := { st.localInfo with position := newPos } } now)

/-- `SecureRoutingProtocol::findRoute` (secure-routing.cpp lines
102-113): builds and signs an RREQ (a no-op on the routing state) and
unconditionally returns `true`; no route is installed. -/
def findRoute (_st : RoutingState) (_destination : String) : Bool := true

/-- `SecureRoutingProtocol::updateRoute` (secure-routing.cpp lines
115-127): refuse entries with `hopCount >= MAX_HOP_COUNT` or with
`timestamp + ROUTE_TIMEOUT < now`; otherwise install. -/
def updateRoute (st : RoutingState) (destination : String) (entry : RouteEntry)
    (now : ℤ) : Bool × RoutingState :=
  if entry.hopCount ≥ MAX_HOP_COUNT then (false, st)
  else if entry.timestamp + ROUTE_TIMEOUT < now then (false, st)
  else (true, { st with routingTable := mapInsert st.routingTable destination entry })

/-- `SecureRoutingProtocol::invalidateRoute` (secure-routing.cpp lines
129-142): erase the entry if present (and broadcast a RERR, a no-op on
the state). -/
def invalidateRoute (st : RoutingState) (destination : String) : Bool × RoutingState :=
  match mapFind st.routingTable destination with
  | some _ => (true, { st with routingTable := mapErase st.routingTable destination })
  | none => (false, st)

/-- `SecureRoutingProtocol::sendData` (secure-routing.cpp lines 49-73).
When the destination is missing the code calls `findRoute` (which
always returns `true` without installing anything) and then calls
`routingTable.find` again; if that second lookup still misses, line 58
dereferences the `end()` iterator — undefined behavior, modelled as
`none`.  Defined outcomes are `some (result, state)`. -/
noncomputable def sendData (st : RoutingState) (destination : String)
    (_data : List Nat) : Option (Bool × RoutingState) :=
  match mapFind st.routingTable destination with
  | some entry =>
      if ¬ isVehicleTrusted st entry.nextHop
      then some (false, (invalidateRoute st destination).2)
      else some (true, st)
  | none =>
      if ¬ findRoute st destination then some (false, st)
      else
        match mapFind st.routingTable destination with
        | some entry =>
            if ¬ isVehicleTrusted st entry.nextHop
            then some (false, (invalidateRoute st destination).2)
            else some (true, st)
        | none => none

/-- The default-constructed `SecureMessage{}` that
`verifyRoutingMessage`, `processBeacon` and `detectReplay` pass to the
crypto module (all fields value-initialized). -/
def emptySecureMessage : SecureMessage :=
  { payload := [], signature := [], timestamp := 0, sequenceNumber := 0, senderCert := [] }

/-- `SecureRoutingProtocol::verifyRoutingMessage` (secure-routing.cpp
lines 258-271): empty buffers and type tags beyond `DATA` (4) fail;
otherwise the result is `verifySecureMessage` applied to a
default-constructed `SecureMessage{}`. -/
def verifyRoutingMessage (sigVerify : List Nat → List Nat → List Nat → Bool)
    (certOk : List Nat → Bool) (now : Nat) (st : RoutingState)
    (message : List Nat) : Bool :=
  match message with
  | [] => false
  | t :: _ =>
      if t > 4 then false
      else (verifySecureMessage sigVerify certOk now st.messageHistory
              emptySecureMessage).1

/-- `SecureRoutingProtocol::processBeacon` (secure-routing.cpp lines
187-204).  Beacon parsing is unimplemented in the source (the parsed
`VehicleInfo` is whatever the comment placeholder leaves), so the
parsed value is a parameter `info`; the crypto check is again run on a
default-constructed `SecureMessage{}`.  On success the neighbor table
and the trust score of `info.id` are updated. -/
def processBeacon (sigVerify : List Nat → List Nat → List Nat → Bool)
    (certOk : List Nat → Bool) (now : Nat) (st : RoutingState)
    (info : VehicleInfo) : Bool × RoutingState :=
  if ¬ (verifySecureMessage sigVerify certOk now st.messageHistory
          emptySecureMessage).1
  then (false, st)
  else
    (true, updateTrustScore
      { st with neighborTable := mapInsert st.neighborTable info.id info }
      info.id 1)

/-- `SecureRoutingProtocol::receiveMessage` (secure-routing.cpp lines
75-100): failed verification short-circuits; a HELLO is handed to
`processBeacon` (with the unimplemented parse abstracted as `info`);
all other types are unhandled stubs returning `true` with no state
change. -/
def receiveMessage (sigVerify : List Nat → List Nat → List Nat → Bool)
    (certOk : List Nat → Bool) (now : Nat) (st : RoutingState)
    (message : List Nat) (info : VehicleInfo) : Bool × RoutingState :=
  if ¬ verifyRoutingMessage sigVerify certOk now st message then (false, st)
  else
    match message with
    | [] => (true, st)
    | t :: _ => if t = 0 then processBeacon sigVerify certOk now st info else (true, st)

/-- The movement-plausibility check as the specification words it
(spec §4.5), stated for comparison with the source's
`isValidMovement`: Δt must be positive, the speed `v = d/Δt` (m/s)
converted to km/h (× 3.6) may not exceed `MAX_SPEED`, and the
acceleration `|v − v_prev|/Δt` with both speeds in m/s may not exceed
`MAX_ACCELERATION`. -/
def specMovementPlausible (p1 p2 : Position) (dt vprev : ℝ) : Prop :=
  0 < dt ∧ (calculateDistance p1 p2 / dt) * 3.6 ≤ MAX_SPEED ∧
  |calculateDistance p1 p2 / dt - vprev| / dt ≤ MAX_ACCELERATION

/-- One public operation of a routing instance, as a transition
relation on the instance state.  `sv`, `co` and `hash` are the
uninterpreted OpenSSL primitives (signature verification, certificate
validation, SHA-256); operations that mutate nothing
(`sendBeacon`, `findRoute`, `calculateTrust`, the detectors) are
omitted because they induce only the identity transition. -/
inductive Step (sv : List Nat → List Nat → List Nat → Bool) (co : List Nat → Bool)
    (hash : List Nat → List Nat) : RoutingState → RoutingState → Prop
  | ofInitVehicle (st : RoutingState) (info : VehicleInfo) (kg : Bool) :
      Step sv co hash st (initVehicle st info kg).2
  | ofUpdatePosition (st : RoutingState) (p : Position) (now : ℤ) :
      Step sv co hash st (updatePosition st p now).2
  | ofSendData (st : RoutingState) (d : String) (data : List Nat) (b : Bool)
      (st2 : RoutingState) (h : sendData st d data = some (b, st2)) :
      Step sv co hash st st2
  | ofReceiveMessage (st : RoutingState) (msg : List Nat) (info : VehicleInfo) (now : Nat) :
      Step sv co hash st (receiveMessage sv co now st msg info).2
  | ofUpdateRoute (st : RoutingState) (d : String) (e : RouteEntry) (now : ℤ) :
      Step sv co hash st (updateRoute st d e now).2
  | ofInvalidateRoute (st : RoutingState) (d : String) :
      Step sv co hash st (invalidateRoute st d).2
  | ofUpdateTrustScore (st : RoutingState) (vid : String) (sc : ℝ) :
      Step sv co hash st (updateTrustScore st vid sc)
  | ofProcessBeacon (st : RoutingState) (info : VehicleInfo) (now : Nat) :
      Step sv co hash st (processBeacon sv co now st info).2
  | ofUpdateMessageHistory (st : RoutingState) (m : SecureMessage) (now : Nat) :
      Step sv co hash st
        { st with messageHistory := updateMessageHistory hash st.messageHistory now m }

/-- The states a routing instance can be in: the constructor state
followed by any sequence of public operations. -/
inductive Reachable (sv : List Nat → List Nat → List Nat → Bool) (co : List Nat → Bool)
    (hash : List Nat → List Nat) : RoutingState → Prop
  | init (id : String) : Reachable sv co hash (initState id)
  | step (st st2 : RoutingState) (h1 : Reachable sv co hash st)
      (h2 : Step sv co hash st st2) : Reachable sv co hash st2

/-- Invariant (I1)/(P6): every routing-table entry has
`hopCount < MAX_HOP_COUNT`. -/
def RouteInv (st : RoutingState) : Prop :=
  ∀ p ∈ st.routingTable, p.2.hopCount < MAX_HOP_COUNT

end Routing

/-- C1: `verifySecureMessage` leaves the replay cache untouched in
every branch — it never inserts a ReplayRecord — so a second call on
the same message succeeds whenever the first did, instead of failing
as a replay.  The first conjunct is the general no-insertion fact; the
second evaluates the code on a concrete fresh message (with the
signature and certificate primitives returning true) and shows both
consecutive calls accept it. -/
theorem c1_verify_never_records_replay :
    (∀ (sv : List Nat → List Nat → List Nat → Bool) (co : List Nat → Bool)
        (now : Nat) (history : List Crypto.MessageHistory) (m : Crypto.SecureMessage),
      (Crypto.verifySecureMessage sv co now history m).2 = history) ∧
    ((Crypto.verifySecureMessage (fun _ _ _ => true) (fun _ => true) 5000 []
        ⟨[116, 101, 115, 116], [1], 5000, 1, []⟩).1 = true ∧
      (Crypto.verifySecureMessage (fun _ _ _ => true) (fun _ => true) 5000
        (Crypto.verifySecureMessage (fun _ _ _ => true) (fun _ => true) 5000 []
          ⟨[116, 101, 115, 116], [1], 5000, 1, []⟩).2
        ⟨[116, 101, 115, 116], [1], 5000, 1, []⟩).1 = true) := by
  constructor
  · intro sv co now history m
    unfold Crypto.verifySecureMessage
    split_ifs <;> rfl
  · constructor <;> decide

/-- C4, counterexample: a timestamp one millisecond in the future
(now = 1000000, timestamp = 1000001) has |now − timestamp| = 1 ≤
MESSAGE_TIMEOUT, so the claim says it is accepted, but the code's
unsigned subtraction underflows and rejects it. -/
theorem c4_counterexample_future_rejected :
    Crypto.isValidTimestamp 1000000 1000001 = false ∧
    1000001 - 1000000 ≤ Crypto.MESSAGE_TIMEOUT := by
  decide

/-- C4, amended: the freshness check computes `now − timestamp` in
`uint64_t`.  For a past-or-present timestamp it accepts exactly when
`now − timestamp ≤ MESSAGE_TIMEOUT` (the edge at exactly 5000 ms is
accepted, one more is rejected); every future timestamp is rejected
(unless the difference is within 5000 of 2^64, unreachable for real
clocks) because the subtraction wraps. -/
theorem c4_freshness_unsigned (now ts : Nat) (hn : now < Crypto.U64_MOD)
    (ht : ts < Crypto.U64_MOD) :
    (ts ≤ now → (Crypto.isValidTimestamp now ts = true ↔
      now - ts ≤ Crypto.MESSAGE_TIMEOUT)) ∧
    (now < ts → ts - now < Crypto.U64_MOD - Crypto.MESSAGE_TIMEOUT →
      Crypto.isValidTimestamp now ts = false) := by
  have h64 : Crypto.U64_MOD = 18446744073709551616 := by norm_num [Crypto.U64_MOD]
  rw [h64] at hn ht
  constructor
  · intro hle
    simp only [Crypto.isValidTimestamp, Crypto.u64sub, Crypto.MESSAGE_TIMEOUT, h64,
      decide_eq_true_eq]
    omega
  · intro hlt hwin
    rw [h64, Crypto.MESSAGE_TIMEOUT] at hwin
    simp only [Crypto.isValidTimestamp, Crypto.u64sub, Crypto.MESSAGE_TIMEOUT, h64,
      decide_eq_false_iff_not]
    omega

/-- C4 witness: at now = 10000 the boundary timestamp 5000 is exactly
MESSAGE_TIMEOUT old and the amended characterisation applies to it. -/
theorem c4_freshness_unsigned_witness :
    (Crypto.isValidTimestamp 10000 5000 = true ↔ 10000 - 5000 ≤ Crypto.MESSAGE_TIMEOUT) ∧
    Crypto.isValidTimestamp 10000 10001 = false :=
  ⟨(c4_freshness_unsigned 10000 5000 (by norm_num [Crypto.U64_MOD])
      (by norm_num [Crypto.U64_MOD])).1 (by norm_num),
    (c4_freshness_unsigned 10000 10001 (by norm_num [Crypto.U64_MOD])
      (by norm_num [Crypto.U64_MOD])).2 (by norm_num)
      (by norm_num [Crypto.U64_MOD, Crypto.MESSAGE_TIMEOUT])⟩

set_option maxRecDepth 40000 in
/-- C5, counterexample: inserting into a replay cache that already
holds 1000 records all carrying the current timestamp leaves 1001
records — the prune that runs on overflow removes only records older
than MESSAGE_TIMEOUT, so the claimed bound of MAX_MESSAGE_HISTORY is
exceeded. -/
theorem c5_counterexample_cache_overflow :
    (Crypto.updateMessageHistory (fun _ => []) (List.replicate 1000 ⟨5000, 0, []⟩) 5000
      ⟨[], [], 5000, 1, []⟩).length = 1001 := by
  decide

/-- C5, amended: after an insertion the replay cache either still holds
at most MAX_MESSAGE_HISTORY records, or every record it holds is
within MESSAGE_TIMEOUT of `now` (the overflow prune removes exactly
the stale records, so the size bound fails only when more than 1000
records are fresh). -/
theorem c5_cache_bound_or_fresh (hash : List Nat → List Nat)
    (history : List Crypto.MessageHistory) (now : Nat) (m : Crypto.SecureMessage) :
    (Crypto.updateMessageHistory hash history now m).length ≤ Crypto.MAX_MESSAGE_HISTORY ∨
    ∀ r ∈ Crypto.updateMessageHistory hash history now m,
      Crypto.u64sub now r.timestamp ≤ Crypto.MESSAGE_TIMEOUT := by
  unfold Crypto.updateMessageHistory
  dsimp only
  split_ifs with h
  · right
    intro r hr
    unfold Crypto.pruneMessageHistory at hr
    have h2 := (List.mem_filter.mp hr).2
    simpa [Nat.not_lt] using h2
  · left
    exact Nat.not_lt.mp h

/-- C7, counterexample: the sequence counter is a pre-incremented
process-global `static`: the very first secure message created in a
process carries sequence number 1 (the claim says 0), and a message
created through a second, freshly constructed instance continues with
2 rather than restarting (the claim says the instances are
independent). -/
theorem c7_counterexample_first_sequence_one :
    (Crypto.createSecureMessage (fun _ => []) none 0 [] 0).1.sequenceNumber = 1 ∧
    (Crypto.createSecureMessage (fun _ => []) none
      (Crypto.createSecureMessage (fun _ => []) none 0 [] 0).2 [] 0).1.sequenceNumber = 2 := by
  decide

/-- C7, amended: `createSecureMessage` assigns the pre-increment of a
process-global counter starting at 0: a call with counter value `c`
produces sequence number `(c+1) mod 2^32` and leaves the counter at
that value, so after `n` calls anywhere in the process the counter is
`n mod 2^32` and the n-th message carries `n mod 2^32`. -/
theorem c7_sequence_global_counter :
    (∀ (sign : List Nat → List Nat) (cert : Option (List Nat)) (c : Nat)
        (p : List Nat) (t : Nat),
      (Crypto.createSecureMessage sign cert c p t).1.sequenceNumber
          = (c + 1) % Crypto.U32_MOD ∧
      (Crypto.createSecureMessage sign cert c p t).2 = (c + 1) % Crypto.U32_MOD) ∧
    (∀ (sign : List Nat → List Nat) (n : Nat),
      Crypto.counterAfter sign n = n % Crypto.U32_MOD) := by
  have h32 : Crypto.U32_MOD = 4294967296 := by norm_num [Crypto.U32_MOD]
  refine ⟨fun sign cert c p t => ⟨rfl, rfl⟩, fun sign n => ?_⟩
  induction n with
  | zero => rfl
  | succ k ih =>
      have h2 : Crypto.counterAfter sign (k + 1)
          = (Crypto.counterAfter sign k + 1) % Crypto.U32_MOD := rfl
      rw [h2, ih, h32]
      omega

/-- C2, counterexample: on a freshly constructed routing instance the
trust the instance computes for its own vehicle id is 0, not 1 — the
constructor stores 1.0 only in `localInfo.trustScore`, which
`calculateTrust` never reads, and never inserts the own id into the
trust map. -/
theorem c2_counterexample_self_trust_zero :
    Routing.calculateTrust (Routing.initState "A") "A" ≠ 1 := by
  have h : Routing.calculateTrust (Routing.initState "A") "A" = 0 := rfl
  rw [h]
  norm_num

/-- C2, amended: `calculateTrust` returns `MIN_TRUST_SCORE = 0` for
every id absent from the `trustScores` map — including the instance's
own id, which no operation of the source ever inserts specially; the
constructor's 1.0 lives only in `localInfo.trustScore`. -/
theorem c2_trust_absent_zero (st : Routing.RoutingState) (vid : String)
    (h : Routing.mapFind st.trustScores vid = none) :
    Routing.calculateTrust st vid = 0 := by
  unfold Routing.calculateTrust
  rw [h]
  rfl

/-- C2 witness: a fresh instance has an empty trust map, and the
amended theorem evaluates its own-id trust to 0 there. -/
theorem c2_trust_absent_zero_witness :
    Routing.mapFind (Routing.initState "B").trustScores "B" = none ∧
    Routing.calculateTrust (Routing.initState "B") "B" = 0 :=
  ⟨rfl, c2_trust_absent_zero (Routing.initState "B") "B" rfl⟩

/-- C3: with an empty routing table, `sendData` reaches undefined
behavior instead of returning NoRoute: `findRoute` unconditionally
returns true without installing a route, so the retried
`routingTable.find` still misses and line 58 dereferences the `end()`
iterator (modelled as `none`). -/
theorem c3_senddata_missing_route_undefined :
    Routing.sendData (Routing.initState "A") "destination1" [116, 101, 115, 116] = none := by
  rfl

/-- C6, counterexample: moving 5 m in 1 s (5 m/s = 18 km/h, with
previous speed 0) satisfies every check of the claim — Δt > 0, speed
18 km/h ≤ 200, |5 − 0|/1 = 5 m/s² ≤ 10 — yet the code rejects it,
because the quantity the code compares against MAX_ACCELERATION is
the km/h speed divided by Δt (18 > 10), not a difference of m/s
speeds. -/
theorem c6_counterexample_acceleration_check :
    Routing.specMovementPlausible ⟨0, 0, 0, 0⟩ ⟨5, 0, 0, 1000⟩ 1 0 ∧
    ¬ Routing.isValidMovement ⟨0, 0, 0, 0⟩ ⟨5, 0, 0, 1000⟩ 1 := by
  have hd : Routing.calculateDistance ⟨0, 0, 0, 0⟩ ⟨5, 0, 0, 1000⟩ = 5 := by
    unfold Routing.calculateDistance
    dsimp only
    rw [show ((0:ℝ) - 5) ^ 2 + ((0:ℝ) - 0) ^ 2 + ((0:ℝ) - 0) ^ 2 = 5 ^ 2 by norm_num]
    exact Real.sqrt_sq (by norm_num)
  constructor
  · refine ⟨by norm_num, ?_, ?_⟩
    · rw [hd]
      norm_num [Routing.MAX_SPEED]
    · rw [hd]
      rw [show (5:ℝ) / 1 - 0 = 5 by norm_num]
      rw [abs_of_nonneg (by norm_num : (0:ℝ) ≤ 5)]
      norm_num [Routing.MAX_ACCELERATION]
  · rintro ⟨h1, h2, h3⟩
    rw [hd] at h3
    norm_num [Routing.MAX_ACCELERATION] at h3

/-- C6, amended: the code accepts a movement exactly when Δt > 0, the
km/h speed `d/Δt × 3.6` is at most MAX_SPEED (exactly 200 km/h is
accepted), and that same km/h speed divided once more by Δt is at most
MAX_ACCELERATION — no previous speed is consulted.  The second
conjunct exhibits the 200 km/h boundary being accepted (2000 m in
36 s). -/
theorem c6_movement_characterization :
    (∀ (p1 p2 : Routing.Position) (dt : ℝ),
      Routing.isValidMovement p1 p2 dt ↔
        0 < dt ∧ (Routing.calculateDistance p1 p2 / dt) * 3.6 ≤ Routing.MAX_SPEED ∧
        ((Routing.calculateDistance p1 p2 / dt) * 3.6) / dt ≤ Routing.MAX_ACCELERATION) ∧
    Routing.isValidMovement ⟨0, 0, 0, 0⟩ ⟨2000, 0, 0, 36000⟩ 36 := by
  have hchar : ∀ (p1 p2 : Routing.Position) (dt : ℝ),
      Routing.isValidMovement p1 p2 dt ↔
        0 < dt ∧ (Routing.calculateDistance p1 p2 / dt) * 3.6 ≤ Routing.MAX_SPEED ∧
        ((Routing.calculateDistance p1 p2 / dt) * 3.6) / dt ≤ Routing.MAX_ACCELERATION := by
    intro p1 p2 dt
    unfold Routing.isValidMovement
    constructor
    · rintro ⟨h1, h2, h3⟩
      exact ⟨not_le.mp h1, not_lt.mp h2, h3⟩
    · rintro ⟨h1, h2, h3⟩
      exact ⟨not_le.mpr h1, not_lt.mpr h2, h3⟩
  refine ⟨hchar, ?_⟩
  have hd : Routing.calculateDistance ⟨0, 0, 0, 0⟩ ⟨2000, 0, 0, 36000⟩ = 2000 := by
    unfold Routing.calculateDistance
    dsimp only
    rw [show ((0:ℝ) - 2000) ^ 2 + ((0:ℝ) - 0) ^ 2 + ((0:ℝ) - 0) ^ 2 = 2000 ^ 2 by norm_num]
    exact Real.sqrt_sq (by norm_num)
  rw [hchar]
  refine ⟨by norm_num, ?_, ?_⟩
  · rw [hd]
    norm_num [Routing.MAX_SPEED]
  · rw [hd]
    norm_num [Routing.MAX_ACCELERATION]

/-- C9: a message that fails `verifyRoutingMessage` makes
`receiveMessage` return failure with the instance state — neighbor
table, routing table, trust scores and replay cache — exactly as it
was before the call. -/
theorem c9_reject_no_mutation (sv : List Nat → List Nat → List Nat → Bool)
    (co : List Nat → Bool) (now : Nat) (st : Routing.RoutingState)
    (message : List Nat) (info : Routing.VehicleInfo)
    (h : Routing.verifyRoutingMessage sv co now st message = false) :
    Routing.receiveMessage sv co now st message info = (false, st) := by
  unfold Routing.receiveMessage
  rw [h]
  simp

/-- C9 witness: the empty byte sequence fails verification and leaves
a fresh instance untouched. -/
theorem c9_reject_no_mutation_witness :
    Routing.verifyRoutingMessage (fun _ _ _ => true) (fun _ => true) 0
      (Routing.initState "C") [] = false ∧
    Routing.receiveMessage (fun _ _ _ => true) (fun _ => true) 0 (Routing.initState "C")
      [] (Routing.initState "C").localInfo = (false, Routing.initState "C") :=
  ⟨rfl, c9_reject_no_mutation _ _ _ _ _ _ rfl⟩

/-- Helper for C10: truncating division by 1000 of anything below 1000
is non-positive (C++ `duration_cast<seconds>` truncates toward
zero). -/
theorem tdiv_thousand_nonpos {a : ℤ} (h : a < 1000) : Int.tdiv a 1000 ≤ 0 := by
  rcases le_or_lt 0 a with h0 | h0
  · exact le_of_eq (Int.tdiv_eq_zero_of_lt h0 h)
  · have h1 : Int.tdiv a 1000 = -(Int.tdiv (-a) 1000) := by
      rw [← Int.neg_tdiv, neg_neg]
    have h2 : 0 ≤ Int.tdiv (-a) 1000 := Int.tdiv_nonneg (by omega) (by omega)
    omega

/-- C10: any new position whose timestamp is less than one whole
second after the stored position's timestamp is rejected by
`updatePosition` with the state unchanged, regardless of distance: the
elapsed milliseconds are truncated to whole seconds before the
Δt > 0 check, so the truncated Δt is ≤ 0. -/
theorem c10_subsecond_update_rejected (st : Routing.RoutingState)
    (newPos : Routing.Position) (now : ℤ)
    (h : newPos.timestamp - st.localInfo.position.timestamp < 1000) :
    Routing.updatePosition st newPos now = (false, st) := by
  have hq : Int.tdiv (newPos.timestamp - st.localInfo.position.timestamp) 1000 ≤ 0 :=
    tdiv_thousand_nonpos h
  have hr : ((Int.tdiv (newPos.timestamp - st.localInfo.position.timestamp) 1000 : ℤ) : ℝ)
      ≤ 0 := by
    exact_mod_cast hq
  unfold Routing.updatePosition
  split
  · rfl
  · rename_i hval
    exact absurd hr (not_not.mp hval).1

/-- C10 witness: a fresh instance stores timestamp 0; a new position
500 ms later and 1,000,000 m away is rejected with the state
unchanged. -/
theorem c10_subsecond_update_rejected_witness :
    ((Routing.Position.mk 1000000 0 0 500).timestamp
        - (Routing.initState "D").localInfo.position.timestamp < 1000) ∧
    Routing.updatePosition (Routing.initState "D") (Routing.Position.mk 1000000 0 0 500) 0
      = (false, Routing.initState "D") :=
  ⟨by norm_num [Routing.initState],
    c10_subsecond_update_rejected _ _ _ (by norm_num [Routing.initState])⟩

/-- Membership after a map insertion: the element was already present
or is the inserted pair. -/
theorem mem_mapInsert {α : Type} {m : List (String × α)} {k : String} {v : α}
    {p : String × α} (h : p ∈ Routing.mapInsert m k v) : p ∈ m ∨ p = (k, v) := by
  unfold Routing.mapInsert at h
  rcases List.mem_append.mp h with h1 | h1
  · exact Or.inl ((List.eraseP_sublist m).subset h1)
  · exact Or.inr (by simpa using h1)

/-- Membership survives a map erasure backwards. -/
theorem mem_mapErase {α : Type} {m : List (String × α)} {k : String}
    {p : String × α} (h : p ∈ Routing.mapErase m k) : p ∈ m :=
  (List.eraseP_sublist m).subset h

/-- `initializeVehicle` never touches the routing table. -/
theorem initVehicle_routingTable (st : Routing.RoutingState)
    (info : Routing.VehicleInfo) (kg : Bool) :
    ((Routing.initVehicle st info kg).2).routingTable = st.routingTable := by
  unfold Routing.initVehicle
  split <;> rfl

/-- Pruning only removes routing-table entries. -/
theorem pruneExpiredEntries_routingTable_sub {st : Routing.RoutingState} {now : ℤ}
    {p : String × Routing.RouteEntry}
    (h : p ∈ (Routing.pruneExpiredEntries st now).routingTable) : p ∈ st.routingTable := by
  unfold Routing.pruneExpiredEntries at h
  exact (List.mem_filter.mp h).1

/-- `updatePosition` only removes routing-table entries (via the
prune). -/
theorem updatePosition_routingTable_sub {st : Routing.RoutingState}
    {np : Routing.Position} {now : ℤ} {p : String × Routing.RouteEntry}
    (h : p ∈ ((Routing.updatePosition st np now).2).routingTable) : p ∈ st.routingTable := by
  unfold Routing.updatePosition at h
  split at h
  · exact h
  · exact pruneExpiredEntries_routingTable_sub h

/-- `invalidateRoute` only removes routing-table entries. -/
theorem invalidateRoute_routingTable_sub {st : Routing.RoutingState} {d : String}
    {p : String × Routing.RouteEntry}
    (h : p ∈ ((Routing.invalidateRoute st d).2).routingTable) : p ∈ st.routingTable := by
  unfold Routing.invalidateRoute at h
  split at h
  · exact mem_mapErase h
  · exact h

/-- `processBeacon` never touches the routing table. -/
theorem processBeacon_routingTable (sv : List Nat → List Nat → List Nat → Bool)
    (co : List Nat → Bool) (now : Nat) (st : Routing.RoutingState)
    (info : Routing.VehicleInfo) :
    ((Routing.processBeacon sv co now st info).2).routingTable = st.routingTable := by
  unfold Routing.processBeacon
  split <;> rfl

/-- `receiveMessage` never touches the routing table (only the HELLO
handler mutates anything, and it mutates neighbor table and trust
scores). -/
theorem receiveMessage_routingTable (sv : List Nat → List Nat → List Nat → Bool)
    (co : List Nat → Bool) (now : Nat) (st : Routing.RoutingState)
    (msg : List Nat) (info : Routing.VehicleInfo) :
    ((Routing.receiveMessage sv co now st msg info).2).routingTable = st.routingTable := by
  unfold Routing.receiveMessage
  split
  · rfl
  · cases msg with
    | nil => rfl
    | cons t rest =>
        dsimp only
        split
        · exact processBeacon_routingTable sv co now st info
        · rfl

/-- A defined `sendData` outcome leaves the state unchanged or erases
one route. -/
theorem sendData_state_cases {st : Routing.RoutingState} {d : String} {data : List Nat}
    {b : Bool} {st2 : Routing.RoutingState}
    (h : Routing.sendData st d data = some (b, st2)) :
    st2 = st ∨ st2 = (Routing.invalidateRoute st d).2 := by
  unfold Routing.sendData at h
  cases hm : Routing.mapFind st.routingTable d with
  | none =>
      rw [hm] at h
      simp [Routing.findRoute] at h
  | some entry =>
      rw [hm] at h
      dsimp only at h
      split_ifs at h with htr
      · injection h with h1
        injection h1 with hb hst
        exact Or.inl hst.symm
      · injection h with h1
        injection h1 with hb hst
        exact Or.inr hst.symm

/-- Every public operation preserves the hop-count bound of the
routing table. -/
theorem stepRouteInv {sv : List Nat → List Nat → List Nat → Bool} {co : List Nat → Bool}
    {hash : List Nat → List Nat} {st st2 : Routing.RoutingState}
    (h : Routing.RouteInv st) (hs : Routing.Step sv co hash st st2) :
    Routing.RouteInv st2 := by
  cases hs with
  | ofInitVehicle info kg =>
      intro p hp
      exact h p (by rwa [initVehicle_routingTable] at hp)
  | ofUpdatePosition pos now =>
      intro p hp
      exact h p (updatePosition_routingTable_sub hp)
  | ofSendData d data b st3 heq =>
      intro p hp
      rcases sendData_state_cases heq with rfl | rfl
      · exact h p hp
      · exact h p (invalidateRoute_routingTable_sub hp)
  | ofReceiveMessage msg info now =>
      intro p hp
      exact h p (by rwa [receiveMessage_routingTable] at hp)
  | ofUpdateRoute d e now =>
      intro p hp
      unfold Routing.updateRoute at hp
      split_ifs at hp with h1 h2
      · exact h p hp
      · exact h p hp
      · rcases mem_mapInsert hp with hm | hpe
        · exact h p hm
        · rw [hpe]
          exact not_le.mp h1
  | ofInvalidateRoute d =>
      intro p hp
      exact h p (invalidateRoute_routingTable_sub hp)
  | ofUpdateTrustScore vid sc =>
      intro p hp
      exact h p hp
  | ofProcessBeacon info now =>
      intro p hp
      exact h p (by rwa [processBeacon_routingTable] at hp)
  | ofUpdateMessageHistory m now =>
      intro p hp
      exact h p hp

/-- C8: `updateRoute` refuses — returns false with the table
unchanged — every entry whose hop count has reached MAX_HOP_COUNT or
that is older than ROUTE_TIMEOUT, and in every reachable state every
routing-table entry has hopCount < MAX_HOP_COUNT (no other operation
installs entries). -/
theorem c8_hop_count_invariant :
    (∀ (st : Routing.RoutingState) (d : String) (e : Routing.RouteEntry) (now : ℤ),
      Routing.MAX_HOP_COUNT ≤ e.hopCount ∨ e.timestamp + Routing.ROUTE_TIMEOUT < now →
      Routing.updateRoute st d e now = (false, st)) ∧
    (∀ (sv : List Nat → List Nat → List Nat → Bool) (co : List Nat → Bool)
        (hash : List Nat → List Nat) (st : Routing.RoutingState),
      Routing.Reachable sv co hash st → Routing.RouteInv st) := by
  constructor
  · intro st d e now hbad
    unfold Routing.updateRoute
    split_ifs with h1 h2
    · rfl
    · rfl
    · rcases hbad with hb | hb
      · exact absurd hb h1
      · exact absurd hb h2
  · intro sv co hash st hr
    induction hr with
    | init id =>
        intro p hp
        simp [Routing.initState] at hp
    | step st st2 h1 h2 ih =>
        exact stepRouteInv ih h2

/-- C8 witness: a hop count of exactly MAX_HOP_COUNT is refused on a
fresh instance, and the fresh instance satisfies the invariant. -/
theorem c8_hop_count_invariant_witness :
    Routing.updateRoute (Routing.initState "A") "destination1"
      (Routing.RouteEntry.mk "B" 10 0 1) 0 = (false, Routing.initState "A") ∧
    Routing.RouteInv (Routing.initState "A") :=
  ⟨c8_hop_count_invariant.1 _ _ _ _ (Or.inl (by norm_num [Routing.MAX_HOP_COUNT])),
    c8_hop_count_invariant.2 (fun _ _ _ => true) (fun _ => true) (fun _ => [])
      _ (Routing.Reachable.init "A")⟩

end VANET
